import Mathlib

/-!
Shallow embedding of the Smartclass scheduling backend (src/server.js).

The source file contains two concatenated variants of the same Express +
Mongoose server.  The document store is modelled as explicit lists of
documents, one per collection; each HTTP handler becomes a pure function
from the store (and the request data) to a response value and a new store.
Mongo semantics used by the handlers:
  * findByIdAndUpdate / findOneAndUpdate update the first matching
    document and leave the rest untouched;
  * deleteMany removes every matching document; insertMany appends;
  * findByIdAndDelete removes the first document with the given id and
    returns it, or returns null when no document matches;
  * schema defaults (status: "pending") apply only when the field is
    absent from the supplied document.
-/

namespace Smartclass

/-- A document of the Schedule collection (scheduleSchema, server.js). -/
structure ScheduleDoc where
  id : Nat
  grade : String
  subject : String
  faculty : String
  classroom : String
  day : String
  time : String
deriving Repr, DecidableEq

/-- A document of the Swap / SwapRequest collection (swapSchema, server.js). -/
structure SwapDoc where
  id : Nat
  fromFaculty : String
  toFaculty : String
  grade : String
  day : String
  time : String
  status : String
deriving Repr, DecidableEq

/-- A document of the Faculty collection (facultySchema, server.js). -/
structure FacultyDoc where
  id : Nat
  name : String
deriving Repr, DecidableEq

/-- A document of the User collection (userSchema, server.js). -/
structure UserDoc where
  role : String
  name : String
  email : String
  password : String
deriving Repr, DecidableEq

/-- The document store: one list of documents per collection the claims use. -/
structure Store where
  users : List UserDoc
  faculty : List FacultyDoc
  schedules : List ScheduleDoc
  swaps : List SwapDoc
deriving Repr, DecidableEq

/-- `Swap.findById`-style lookup: first swap whose `_id` equals `i`. -/
def findSwapById (swaps : List SwapDoc) (i : Nat) : Option SwapDoc :=
  swaps.find? (fun sw => sw.id == i)

/-- `Swap.findByIdAndUpdate(i, {status: st}, {new:true})`: update the first
swap whose id is `i`, returning the updated document (or `none`) and the
new list. -/
def findByIdAndUpdateSwapStatus :
    List SwapDoc → Nat → String → Option SwapDoc × List SwapDoc
  | [], _, _ => (none, [])
  | sw :: rest, i, st =>
    if sw.id == i then
      (some { sw with status := st }, { sw with status := st } :: rest)
    else
      let (r, rest') := findByIdAndUpdateSwapStatus rest i st
      (r, sw :: rest')

/-- The query filter of the approve handler's `Schedule.findOneAndUpdate`:
`{grade: swap.grade, day: swap.day, time: swap.time, faculty: swap.fromFaculty}`. -/
def scheduleMatches (sw : SwapDoc) (s : ScheduleDoc) : Bool :=
  s.grade == sw.grade && s.day == sw.day && s.time == sw.time &&
    s.faculty == sw.fromFaculty

/-- `Schedule.findOneAndUpdate(filter, {faculty: f})`: rewrite the faculty
field of the first schedule satisfying `p`; no-op when none matches. -/
def findOneAndUpdateScheduleFaculty
    (p : ScheduleDoc → Bool) (f : String) : List ScheduleDoc → List ScheduleDoc
  | [] => []
  | s :: rest =>
    if p s then { s with faculty := f } :: rest
    else s :: findOneAndUpdateScheduleFaculty p f rest

/-- `PUT /swaps/:id/approve`.  `findByIdAndUpdate` sets the status; when no
swap has id `i` the handler dereferences `null.toFaculty`, which throws a
TypeError (modelled as `Except.error`).  Otherwise, when `swap.toFaculty`
is truthy (non-empty), the first matching schedule's faculty is rewritten. -/
def approveSwap (store : Store) (i : Nat) : Except String (SwapDoc × Store) :=
  match findByIdAndUpdateSwapStatus store.swaps i "approved" with
  | (none, _) =>
    .error "TypeError: Cannot read properties of null (reading toFaculty)"
  | (some sw, swaps') =>
    let schedules' :=
      if sw.toFaculty ≠ "" then
        findOneAndUpdateScheduleFaculty (scheduleMatches sw) sw.toFaculty
          store.schedules
      else store.schedules
    .ok (sw, { store with swaps := swaps', schedules := schedules' })

/-- `PUT /swaps/:id/reject`: sets the status of the first swap with id `i`
to "rejected"; responds with the updated document (null when absent). -/
def rejectSwap (store : Store) (i : Nat) : Option SwapDoc × Store :=
  let r := findByIdAndUpdateSwapStatus store.swaps i "rejected"
  (r.1, { store with swaps := r.2 })

/-- Request body of `POST /schedules`: `{grade, schedules}`. -/
structure SchedulesBody where
  grade : String
  schedules : List ScheduleDoc
deriving Repr, DecidableEq

/-- `POST /schedules`: `Schedule.deleteMany({grade: req.body.grade})` then
`Schedule.insertMany(req.body.schedules)`; responds with the inserted list. -/
def postSchedules (store : Store) (b : SchedulesBody) :
    List ScheduleDoc × Store :=
  let remaining := store.schedules.filter (fun s => !(s.grade == b.grade))
  (b.schedules, { store with schedules := remaining ++ b.schedules })

/-- Request body of `POST /swaps`.  Each field is optional: mongoose applies
the schema default `status: "pending"` only when the field is absent.
Absent string fields are stored as absent and behave like `""` everywhere
the handlers read them (JS truthiness, equality against other strings). -/
structure SwapBody where
  fromFaculty : Option String
  toFaculty : Option String
  grade : Option String
  day : Option String
  time : Option String
  status : Option String
deriving Repr, DecidableEq

/-- `POST /swaps`: `new Swap(req.body).save()` with a fresh id `i`;
responds with the saved document. -/
def createSwap (store : Store) (i : Nat) (b : SwapBody) : SwapDoc × Store :=
  let doc : SwapDoc :=
    { id := i
      fromFaculty := b.fromFaculty.getD ""
      toFaculty := b.toFaculty.getD ""
      grade := b.grade.getD ""
      day := b.day.getD ""
      time := b.time.getD ""
      status := b.status.getD "pending" }
  (doc, { store with swaps := store.swaps ++ [doc] })

/-- Request body of `POST /signup`.  A missing field is modelled as `""`
(both are falsy under the handler's `!field` check). -/
structure SignupBody where
  role : String
  name : String
  email : String
  password : String
deriving Repr, DecidableEq

/-- `bcrypt.hashSync(password, 8)`, modelled abstractly: the library hash is
opaque to every claim; only its application is recorded. -/
def bcryptHashSync8 (password : String) : String :=
  "bcrypt$08$" ++ password

/-- Outcome of a signup request. -/
inductive SignupResult where
  | validationError   -- 400 "All fields required"
  | conflict          -- 400 "User already exists"
  | dbError           -- duplicate-key error from the unique email index
  | forbidden         -- 403 "Only admin allowed" (variant 1 gate)
  | success           -- 200 acknowledgment
deriving Repr, DecidableEq

/-- `POST /signup`, variant 2 (public signup): requires all fields, lowercases
the email, rejects when a user with the normalized email exists, otherwise
stores the user with the normalized email and hashed password. -/
def signupV2 (store : Store) (b : SignupBody) : SignupResult × Store :=
  if b.role == "" || b.name == "" || b.email == "" || b.password == "" then
    (.validationError, store)
  else
    let normalizedEmail := b.email.toLower
    if store.users.any (fun u => u.email == normalizedEmail) then
      (.conflict, store)
    else
      (.success,
        { store with
            users := store.users ++
              [{ role := b.role, name := b.name, email := normalizedEmail
                 password := bcryptHashSync8 b.password }] })

/-- `POST /signup`, variant 1 (admin-gated): no normalization and no
application-level existence check; `user.save()` stores the email verbatim.
The only uniqueness enforcement is the store's unique index on `email`,
which compares the stored strings exactly. -/
def signupV1 (store : Store) (callerIsAdmin : Bool) (b : SignupBody) :
    SignupResult × Store :=
  if !callerIsAdmin then (.forbidden, store)
  else if store.users.any (fun u => u.email == b.email) then
    (.dbError, store)
  else
    (.success,
      { store with
          users := store.users ++
            [{ role := b.role, name := b.name, email := b.email
               password := bcryptHashSync8 b.password }] })

/-!
Teacher login.  The handler builds `new RegExp("^" + email + "$", "i")` and
runs `Faculty.findOne({name: {$regex: ...}})`.  The regex semantics are
modelled for the fragment of JS regex syntax the development needs: a
pattern character that is not a metacharacter matches itself up to ASCII
case, and `.` matches any character except a line terminator.  Patterns
containing other metacharacters (`*`, `+`, `|`, ...) fall outside this
model and are excluded by hypothesis wherever the model is relied on.
-/

/-- One token of the anchored pattern `^<email>$`. -/
inductive RegexTok where
  | dot
  | lit (c : Char)
deriving Repr, DecidableEq

/-- Tokenize a pattern character. -/
def toRegexTok (c : Char) : RegexTok :=
  if c == '.' then .dot else .lit c

/-- JS line terminators, which `.` does not match. -/
def isLineTerminator (c : Char) : Bool :=
  c == '\n' || c == '\r' || c.toNat == 0x2028 || c.toNat == 0x2029

/-- Whether one pattern token matches one subject character, under the `i`
flag (ASCII case folding). -/
def regexTokMatches (t : RegexTok) (c : Char) : Bool :=
  match t with
  | .dot => !isLineTerminator c
  | .lit l => l.toLower == c.toLower

/-- Anchored match of a token list against a character list. -/
def regexTokensMatch : List RegexTok → List Char → Bool
  | [], [] => true
  | t :: ts, c :: cs => regexTokMatches t c && regexTokensMatch ts cs
  | _, _ => false

/-- `new RegExp("^" + email + "$", "i").test(name)` for patterns within the
modelled fragment. -/
def facultyNameMatches (email name : String) : Bool :=
  regexTokensMatch (email.data.map toRegexTok) name.data

/-- The characters the JS regex grammar treats specially in a pattern body. -/
def isRegexSpecial (c : Char) : Bool :=
  c == '.' || c == '*' || c == '+' || c == '?' || c == '^' || c == '$' ||
  c == '(' || c == ')' || c == '[' || c == ']' || c == '|' || c == '\\' ||
  c.toNat == 0x7b || c.toNat == 0x7d

/-- Case-insensitive whole-string equality, the relation the spec says the
teacher lookup implements ("matches the supplied email field
case-insensitively as a whole-string match"). -/
def ciWholeStringEq (a b : String) : Bool :=
  decide (a.data.map Char.toLower = b.data.map Char.toLower)

/-- `Faculty.findOne({name: {$regex: new RegExp("^"+email+"$","i")}})`:
first faculty whose name matches the anchored pattern. -/
def findOneFaculty (fs : List FacultyDoc) (email : String) : Option FacultyDoc :=
  fs.find? (fun f => facultyNameMatches email f.name)

/-- `String.prototype.charAt(0)`: the first character as a one-character
string, or `""` on the empty string. -/
def jsCharAt0 (s : String) : String :=
  match s.data with
  | [] => ""
  | c :: _ => String.mk [c]

/-- The whitespace characters `String.prototype.trim` strips. -/
def jsWhitespace (c : Char) : Bool :=
  c == ' ' || c == '\t' || c == '\n' || c == '\r' ||
  c.toNat == 0x0B || c.toNat == 0x0C || c.toNat == 0xA0 ||
  c.toNat == 0x2028 || c.toNat == 0x2029 || c.toNat == 0xFEFF

/-- `String.prototype.trim`: strip leading and trailing whitespace. -/
def jsTrim (s : String) : String :=
  String.mk
    (((s.data.dropWhile jsWhitespace).reverse.dropWhile jsWhitespace).reverse)

/-- `String.prototype.toUpperCase` (ASCII mapping, enough for the
one-character strings it is applied to here). -/
def jsToUpper (s : String) : String :=
  String.mk (s.data.map Char.toUpper)

/-- The derived teacher password:
`faculty.name.trim().charAt(0).toUpperCase() + "1234"`. -/
def teacherCorrectPassword (name : String) : String :=
  jsToUpper (jsCharAt0 (jsTrim name)) ++ "1234"

/-- Outcome of a teacher-role login. -/
inductive TeacherLoginResult where
  | facultyNotFound   -- 400 "Faculty not found"
  | invalidPassword   -- 400 "Invalid password"
  | ok (name : String)  -- token issued for this faculty name
deriving Repr, DecidableEq

/-- The `role === "teacher"` branch of `POST /login`. -/
def teacherLogin (store : Store) (email password : String) : TeacherLoginResult :=
  match findOneFaculty store.faculty email with
  | none => .facultyNotFound
  | some f =>
    if password ≠ teacherCorrectPassword f.name then .invalidPassword
    else .ok f.name

/-- `Faculty.findByIdAndDelete(i)`: remove the first faculty with id `i`,
returning the deleted document (null when absent) and the new list. -/
def findByIdAndDeleteFaculty :
    List FacultyDoc → Nat → Option FacultyDoc × List FacultyDoc
  | [], _ => (none, [])
  | f :: rest, i =>
    if f.id == i then (some f, rest)
    else
      let (r, rest') := findByIdAndDeleteFaculty rest i
      (r, f :: rest')

/-- `DELETE /faculty/:id`: responds with the deleted document or null. -/
def deleteFacultyById (store : Store) (i : Nat) : Option FacultyDoc × Store :=
  let r := findByIdAndDeleteFaculty store.faculty i
  (r.1, { store with faculty := r.2 })

/-! ## Helper lemmas -/

lemma findByIdAndUpdateSwapStatus_of_not_mem (l : List SwapDoc) (i : Nat)
    (st : String) (h : ∀ sw ∈ l, sw.id ≠ i) :
    findByIdAndUpdateSwapStatus l i st = (none, l) := by
  induction l with
  | nil => rfl
  | cons sw rest ih =>
    have hsw : sw.id ≠ i := h sw (List.mem_cons_self _ _)
    have hrest : ∀ x ∈ rest, x.id ≠ i := fun x hx => h x (List.mem_cons_of_mem _ hx)
    simp [findByIdAndUpdateSwapStatus, hsw, ih hrest]

lemma findByIdAndDeleteFaculty_of_not_mem (l : List FacultyDoc) (i : Nat)
    (h : ∀ f ∈ l, f.id ≠ i) :
    findByIdAndDeleteFaculty l i = (none, l) := by
  induction l with
  | nil => rfl
  | cons f rest ih =>
    have hf : f.id ≠ i := h f (List.mem_cons_self _ _)
    have hrest : ∀ x ∈ rest, x.id ≠ i := fun x hx => h x (List.mem_cons_of_mem _ hx)
    simp [findByIdAndDeleteFaculty, hf, ih hrest]

lemma findByIdAndUpdateSwapStatus_fst (l : List SwapDoc) (i : Nat)
    (st : String) (R : SwapDoc) (h : findSwapById l i = some R) :
    (findByIdAndUpdateSwapStatus l i st).1 = some { R with status := st } := by
  induction l with
  | nil => simp [findSwapById, List.find?] at h
  | cons sw rest ih =>
    by_cases hsw : (sw.id == i) = true
    · have : sw = R := by
        simpa [findSwapById, List.find?, hsw] using h
      subst this
      simp [findByIdAndUpdateSwapStatus, hsw]
    · have h' : findSwapById rest i = some R := by
        simpa [findSwapById, List.find?, hsw] using h
      simp [findByIdAndUpdateSwapStatus, hsw, ih h']

lemma findSwapById_update (l : List SwapDoc) (i : Nat) (st : String)
    (R : SwapDoc) (h : findSwapById l i = some R) :
    findSwapById (findByIdAndUpdateSwapStatus l i st).2 i =
      some { R with status := st } := by
  induction l with
  | nil => simp [findSwapById, List.find?] at h
  | cons sw rest ih =>
    by_cases hsw : (sw.id == i) = true
    · have : sw = R := by
        simpa [findSwapById, List.find?, hsw] using h
      subst this
      simp [findByIdAndUpdateSwapStatus, findSwapById, List.find?, hsw]
    · have h' : findSwapById rest i = some R := by
        simpa [findSwapById, List.find?, hsw] using h
      simp [findByIdAndUpdateSwapStatus, findSwapById, List.find?, hsw] at ih ⊢
      exact ih h'

lemma findOneAndUpdateScheduleFaculty_of_find_none (p : ScheduleDoc → Bool)
    (f : String) (l : List ScheduleDoc) (h : l.find? p = none) :
    findOneAndUpdateScheduleFaculty p f l = l := by
  induction l with
  | nil => rfl
  | cons s rest ih =>
    by_cases hs : p s = true
    · simp [List.find?, hs] at h
    · have h' : rest.find? p = none := by
        simpa [List.find?, hs] using h
      simp [findOneAndUpdateScheduleFaculty, hs, ih h']

lemma findOneAndUpdateScheduleFaculty_of_find_some (p : ScheduleDoc → Bool)
    (f : String) (l : List ScheduleDoc) (s : ScheduleDoc)
    (h : l.find? p = some s) :
    ∃ l1 l2, l = l1 ++ s :: l2 ∧ (∀ x ∈ l1, p x = false) ∧
      findOneAndUpdateScheduleFaculty p f l =
        l1 ++ { s with faculty := f } :: l2 := by
  induction l with
  | nil => simp [List.find?] at h
  | cons a rest ih =>
    by_cases ha : p a = true
    · have : a = s := by simpa [List.find?, ha] using h
      subst this
      exact ⟨[], rest, by simp, by simp,
        by simp [findOneAndUpdateScheduleFaculty, ha]⟩
    · have h' : rest.find? p = some s := by
        simpa [List.find?, ha] using h
      obtain ⟨l1, l2, hl, hall, hres⟩ := ih h'
      refine ⟨a :: l1, l2, by simp [hl], ?_, ?_⟩
      · intro x hx
        rcases List.mem_cons.mp hx with rfl | hx'
        · simpa using ha
        · exact hall x hx'
      · simp [findOneAndUpdateScheduleFaculty, ha, hres]

lemma regexTokensMatch_all_lit (cs ds : List Char)
    (h : ∀ c ∈ cs, isRegexSpecial c = false) :
    (regexTokensMatch (cs.map toRegexTok) ds = true ↔
      cs.map Char.toLower = ds.map Char.toLower) := by
  induction cs generalizing ds with
  | nil =>
    cases ds with
    | nil => simp [regexTokensMatch]
    | cons d ds => simp [regexTokensMatch]
  | cons c cs ih =>
    have hc : isRegexSpecial c = false := h c (List.mem_cons_self _ _)
    have hcne : ¬ (c = '.') := by
      intro hd
      subst hd
      simp [isRegexSpecial] at hc
    have hrest : ∀ x ∈ cs, isRegexSpecial x = false :=
      fun x hx => h x (List.mem_cons_of_mem _ hx)
    have htok : toRegexTok c = RegexTok.lit c := by
      simp [toRegexTok, hcne]
    cases ds with
    | nil => simp [regexTokensMatch]
    | cons d ds =>
      constructor
      · intro hm
        rw [List.map_cons, htok] at hm
        have hm' : (c.toLower == d.toLower) = true ∧
            regexTokensMatch (cs.map toRegexTok) ds = true := by
          simpa [regexTokensMatch, regexTokMatches, Bool.and_eq_true] using hm
        have h1 : c.toLower = d.toLower := by simpa using hm'.1
        have h2 := (ih ds hrest).mp hm'.2
        rw [List.map_cons, List.map_cons, h1, h2]
      · intro hm
        rw [List.map_cons, List.map_cons] at hm
        injection hm with h1 h2
        have h2' := (ih ds hrest).mpr h2
        rw [List.map_cons, htok]
        simp [regexTokensMatch, regexTokMatches, Bool.and_eq_true, h1, h2']

/-! ## Claim theorems -/

/-- C7: for every store state and every swap-request id, the reject handler
leaves every Schedule document unchanged; its only write is to the swaps
collection. -/
theorem rejectSwap_preserves_schedules (store : Store) (i : Nat) :
    ((rejectSwap store i).2).schedules = store.schedules := rfl

/-- C8: a delete-by-id request whose id matches no stored document responds
with a null payload (no crash) and leaves the store unchanged. -/
theorem deleteFaculty_missing_id_null_and_unchanged (store : Store) (i : Nat)
    (h : ∀ f ∈ store.faculty, f.id ≠ i) :
    deleteFacultyById store i = (none, store) := by
  simp [deleteFacultyById, findByIdAndDeleteFaculty_of_not_mem _ _ h]

/-- Witness for C8: deleting id 3 from a store whose only faculty has id 0
returns null and the unchanged store. -/
theorem deleteFaculty_missing_id_null_and_unchanged_witness :
    (∀ f ∈ ([⟨0, "alice"⟩] : List FacultyDoc), f.id ≠ 3) ∧
    deleteFacultyById ⟨[], [⟨0, "alice"⟩], [], []⟩ 3 =
      (none, ⟨[], [⟨0, "alice"⟩], [], []⟩) :=
  ⟨by decide,
    deleteFaculty_missing_id_null_and_unchanged ⟨[], [⟨0, "alice"⟩], [], []⟩ 3
      (by decide)⟩

/-- C9: an approve request whose id matches no stored swap request makes the
handler dereference null (`swap.toFaculty`), so it throws instead of
returning a swap document: the id's existence is a precondition for normal
completion. -/
theorem approveSwap_missing_id_null_deref (store : Store) (i : Nat)
    (h : ∀ sw ∈ store.swaps, sw.id ≠ i) :
    approveSwap store i =
      .error "TypeError: Cannot read properties of null (reading toFaculty)" := by
  simp [approveSwap, findByIdAndUpdateSwapStatus_of_not_mem _ _ _ h]

/-- Witness for C9: approving id 7 against a store with a single swap of
id 5 throws the null dereference. -/
theorem approveSwap_missing_id_null_deref_witness :
    (∀ sw ∈ ([⟨5, "Alice", "Bob", "10A", "Mon", "9am", "pending"⟩] :
        List SwapDoc), sw.id ≠ 7) ∧
    approveSwap ⟨[], [], [],
        [⟨5, "Alice", "Bob", "10A", "Mon", "9am", "pending"⟩]⟩ 7 =
      .error "TypeError: Cannot read properties of null (reading toFaculty)" :=
  ⟨by decide,
    approveSwap_missing_id_null_deref
      ⟨[], [], [], [⟨5, "Alice", "Bob", "10A", "Mon", "9am", "pending"⟩]⟩ 7
      (by decide)⟩

/-- C10: `POST /schedules` inserts the request's schedules list verbatim with
no check that each entry's grade equals the request's grade: posting for
grade "10A" a list containing an entry of grade "11B" inserts that entry
unchanged, and it coexists with grade 11B's existing timetable entry, which
the grade-scoped delete did not touch. -/
theorem postSchedules_no_grade_check :
    ("11B" ≠ "10A") ∧
    (postSchedules ⟨[], [], [⟨0, "11B", "Sci", "Carol", "R2", "Tue", "10am"⟩], []⟩
        ⟨"10A", [⟨1, "11B", "Math", "Dave", "R3", "Wed", "11am"⟩]⟩).2.schedules =
      [⟨0, "11B", "Sci", "Carol", "R2", "Tue", "10am"⟩,
       ⟨1, "11B", "Math", "Dave", "R3", "Wed", "11am"⟩] := by
  constructor
  · decide
  · rfl

/-- Counterexample to C6 as stated: a `POST /swaps` body that itself carries
`status: "approved"` is stored with that status, not "pending" — the schema
default applies only when the field is absent. -/
theorem createSwap_status_not_always_pending :
    ((createSwap ⟨[], [], [], []⟩ 0
        ⟨some "Alice", some "Bob", some "10A", some "Mon", some "9am",
          some "approved"⟩).2.swaps =
      [⟨0, "Alice", "Bob", "10A", "Mon", "9am", "approved"⟩]) ∧
    ¬ ((createSwap ⟨[], [], [], []⟩ 0
        ⟨some "Alice", some "Bob", some "10A", some "Mon", some "9am",
          some "approved"⟩).1.status = "pending") := by
  constructor
  · rfl
  · decide

/-- C6 (amended): for every `POST /swaps` body that omits the status field,
the stored document's status is "pending" immediately after creation. -/
theorem createSwap_default_status_pending (store : Store) (i : Nat)
    (b : SwapBody) (h : b.status = none) :
    ((createSwap store i b).1.status = "pending") ∧
    (createSwap store i b).1 ∈ (createSwap store i b).2.swaps := by
  constructor
  · simp [createSwap, h]
  · simp [createSwap]

/-- Witness for C6 (amended): creating a swap with no status field stores
status "pending". -/
theorem createSwap_default_status_pending_witness :
    ((⟨some "Alice", some "Bob", some "10A", some "Mon", some "9am",
        none⟩ : SwapBody).status = none) ∧
    (((createSwap ⟨[], [], [], []⟩ 0
        ⟨some "Alice", some "Bob", some "10A", some "Mon", some "9am",
          none⟩).1.status = "pending") ∧
      (createSwap ⟨[], [], [], []⟩ 0
        ⟨some "Alice", some "Bob", some "10A", some "Mon", some "9am",
          none⟩).1 ∈
        (createSwap ⟨[], [], [], []⟩ 0
          ⟨some "Alice", some "Bob", some "10A", some "Mon", some "9am",
            none⟩).2.swaps) :=
  ⟨rfl,
    createSwap_default_status_pending ⟨[], [], [], []⟩ 0
      ⟨some "Alice", some "Bob", some "10A", some "Mon", some "9am", none⟩ rfl⟩

/-- Counterexample to C3 as stated: posting for grade "10A" a list whose one
entry carries grade "11B" does not leave grade "10A" with exactly the
entries of the list — the foreign-grade entry lands outside grade "10A". -/
theorem postSchedules_claim_fails_on_foreign_grade :
    ¬ ((postSchedules ⟨[], [], [], []⟩
          ⟨"10A", [⟨0, "11B", "Math", "Dave", "R3", "Wed", "11am"⟩]⟩).2.schedules.filter
            (fun s => s.grade == "10A") =
        [⟨0, "11B", "Math", "Dave", "R3", "Wed", "11am"⟩]) := by
  decide

/-- C3 (amended): when every posted entry carries the request's grade,
`POST /schedules` leaves that grade with exactly the posted entries and
every entry of any other grade unchanged. -/
theorem postSchedules_replaces_grade (store : Store) (b : SchedulesBody)
    (h : ∀ e ∈ b.schedules, e.grade = b.grade) :
    ((postSchedules store b).2.schedules.filter
        (fun s => s.grade == b.grade) = b.schedules) ∧
    ((postSchedules store b).2.schedules.filter
        (fun s => !(s.grade == b.grade)) =
      store.schedules.filter (fun s => !(s.grade == b.grade))) := by
  have hrem : ∀ x ∈ store.schedules.filter (fun s => !(s.grade == b.grade)),
      (x.grade == b.grade) = false := by
    intro x hx
    simpa using (List.mem_filter.mp hx).2
  have hres : (postSchedules store b).2.schedules =
      store.schedules.filter (fun s => !(s.grade == b.grade)) ++ b.schedules := rfl
  constructor
  · rw [hres, List.filter_append]
    have h1 : (store.schedules.filter (fun s => !(s.grade == b.grade))).filter
        (fun s => s.grade == b.grade) = [] := by
      rw [List.filter_eq_nil_iff]
      intro a ha
      simp [hrem a ha]
    have h2 : b.schedules.filter (fun s => s.grade == b.grade) = b.schedules := by
      rw [List.filter_eq_self]
      intro a ha
      simp [h a ha]
    rw [h1, h2, List.nil_append]
  · rw [hres, List.filter_append]
    have h1 : (store.schedules.filter (fun s => !(s.grade == b.grade))).filter
        (fun s => !(s.grade == b.grade)) =
        store.schedules.filter (fun s => !(s.grade == b.grade)) := by
      rw [List.filter_eq_self]
      intro a ha
      simp [hrem a ha]
    have h2 : b.schedules.filter (fun s => !(s.grade == b.grade)) = [] := by
      rw [List.filter_eq_nil_iff]
      intro a ha
      simp [h a ha]
    rw [h1, h2, List.append_nil]

/-- Witness for C3 (amended): replacing grade "10A"'s single entry with a new
one preserves grade "11B"'s entry and leaves "10A" with exactly the posted
list. -/
theorem postSchedules_replaces_grade_witness :
    (∀ e ∈ (⟨"10A", [⟨2, "10A", "Phys", "Emma", "R4", "Thu", "2pm"⟩]⟩ :
        SchedulesBody).schedules,
      e.grade = (⟨"10A", [⟨2, "10A", "Phys", "Emma", "R4", "Thu", "2pm"⟩]⟩ :
        SchedulesBody).grade) ∧
    (((postSchedules
          ⟨[], [], [⟨0, "10A", "Math", "Alice", "R1", "Mon", "9am"⟩,
                    ⟨1, "11B", "Sci", "Carol", "R2", "Tue", "10am"⟩], []⟩
          ⟨"10A", [⟨2, "10A", "Phys", "Emma", "R4", "Thu", "2pm"⟩]⟩).2.schedules.filter
        (fun s => s.grade ==
          (⟨"10A", [⟨2, "10A", "Phys", "Emma", "R4", "Thu", "2pm"⟩]⟩ :
            SchedulesBody).grade) =
        (⟨"10A", [⟨2, "10A", "Phys", "Emma", "R4", "Thu", "2pm"⟩]⟩ :
          SchedulesBody).schedules) ∧
      ((postSchedules
          ⟨[], [], [⟨0, "10A", "Math", "Alice", "R1", "Mon", "9am"⟩,
                    ⟨1, "11B", "Sci", "Carol", "R2", "Tue", "10am"⟩], []⟩
          ⟨"10A", [⟨2, "10A", "Phys", "Emma", "R4", "Thu", "2pm"⟩]⟩).2.schedules.filter
        (fun s => !(s.grade ==
          (⟨"10A", [⟨2, "10A", "Phys", "Emma", "R4", "Thu", "2pm"⟩]⟩ :
            SchedulesBody).grade)) =
        (⟨[], [], [⟨0, "10A", "Math", "Alice", "R1", "Mon", "9am"⟩,
                   ⟨1, "11B", "Sci", "Carol", "R2", "Tue", "10am"⟩], []⟩ :
          Store).schedules.filter
          (fun s => !(s.grade ==
            (⟨"10A", [⟨2, "10A", "Phys", "Emma", "R4", "Thu", "2pm"⟩]⟩ :
              SchedulesBody).grade)))) :=
  ⟨by decide,
    postSchedules_replaces_grade
      ⟨[], [], [⟨0, "10A", "Math", "Alice", "R1", "Mon", "9am"⟩,
                ⟨1, "11B", "Sci", "Carol", "R2", "Tue", "10am"⟩], []⟩
      ⟨"10A", [⟨2, "10A", "Phys", "Emma", "R4", "Thu", "2pm"⟩]⟩
      (by decide)⟩

/-- Counterexample to C4 as stated: the admin-gated signup handler
(variant 1) neither lowercases the email nor checks for a case-variant
duplicate: with "alice@x.com" already stored, signing up "Alice@X.com"
succeeds and a second user is created with the email stored verbatim. -/
theorem signupV1_case_variant_not_rejected :
    (signupV1 ⟨[⟨"student", "Alice", "alice@x.com", "h"⟩], [], [], []⟩ true
        ⟨"student", "Alana", "Alice@X.com", "pw"⟩).1 = .success ∧
    (signupV1 ⟨[⟨"student", "Alice", "alice@x.com", "h"⟩], [], [], []⟩ true
        ⟨"student", "Alana", "Alice@X.com", "pw"⟩).2.users =
      [⟨"student", "Alice", "alice@x.com", "h"⟩,
       ⟨"student", "Alana", "Alice@X.com", "bcrypt$08$pw"⟩] := by
  constructor
  · rfl
  · decide

/-- C4 (amended): the public signup handler (variant 2) lowercases the email
before both the uniqueness check and storage: a request whose lowercased
email equals a stored email is rejected as a conflict with the user set
unchanged, and otherwise the user is stored with the lowercased email. -/
theorem signupV2_normalizes_email (store : Store) (b : SignupBody)
    (hr : b.role ≠ "") (hn : b.name ≠ "") (he : b.email ≠ "")
    (hp : b.password ≠ "") :
    ((∃ u ∈ store.users, u.email = b.email.toLower) →
      signupV2 store b = (.conflict, store)) ∧
    ((∀ u ∈ store.users, u.email ≠ b.email.toLower) →
      (signupV2 store b).1 = .success ∧
      (signupV2 store b).2.users =
        store.users ++
          [{ role := b.role, name := b.name, email := b.email.toLower,
             password := bcryptHashSync8 b.password }]) := by
  have g : (b.role == "" || b.name == "" || b.email == "" ||
      b.password == "") = false := by
    simp [hr, hn, he, hp]
  constructor
  · rintro ⟨u, hu, heq⟩
    have ha : store.users.any (fun u => u.email == b.email.toLower) = true :=
      List.any_eq_true.mpr ⟨u, hu, by simp [heq]⟩
    simp [signupV2, g, ha]
  · intro hall
    have ha : store.users.any (fun u => u.email == b.email.toLower) = false := by
      rw [List.any_eq_false]
      intro u hu
      simp [hall u hu]
    constructor
    · simp [signupV2, g, ha]
    · simp [signupV2, g, ha]

/-- Witness for C4 (amended): with "alice@x.com" stored, the variant-2 signup
of "Alice@X.com" is a conflict leaving the store unchanged. -/
theorem signupV2_normalizes_email_witness :
    (("student" : String) ≠ "") ∧ (("Alana" : String) ≠ "") ∧
    (("Alice@X.com" : String) ≠ "") ∧ (("pw" : String) ≠ "") ∧
    (((∃ u ∈ (⟨[⟨"student", "Alice", "alice@x.com", "h"⟩], [], [], []⟩ :
          Store).users,
        u.email = ("Alice@X.com" : String).toLower) →
      signupV2 ⟨[⟨"student", "Alice", "alice@x.com", "h"⟩], [], [], []⟩
          ⟨"student", "Alana", "Alice@X.com", "pw"⟩ =
        (.conflict, ⟨[⟨"student", "Alice", "alice@x.com", "h"⟩], [], [], []⟩)) ∧
    ((∀ u ∈ (⟨[⟨"student", "Alice", "alice@x.com", "h"⟩], [], [], []⟩ :
          Store).users,
        u.email ≠ ("Alice@X.com" : String).toLower) →
      (signupV2 ⟨[⟨"student", "Alice", "alice@x.com", "h"⟩], [], [], []⟩
          ⟨"student", "Alana", "Alice@X.com", "pw"⟩).1 = .success ∧
      (signupV2 ⟨[⟨"student", "Alice", "alice@x.com", "h"⟩], [], [], []⟩
          ⟨"student", "Alana", "Alice@X.com", "pw"⟩).2.users =
        (⟨[⟨"student", "Alice", "alice@x.com", "h"⟩], [], [], []⟩ :
          Store).users ++
          [{ role := "student", name := "Alana",
             email := ("Alice@X.com" : String).toLower,
             password := bcryptHashSync8 "pw" }])) :=
  ⟨by decide, by decide, by decide, by decide,
    signupV2_normalizes_email
      ⟨[⟨"student", "Alice", "alice@x.com", "h"⟩], [], [], []⟩
      ⟨"student", "Alana", "Alice@X.com", "pw"⟩
      (by decide) (by decide) (by decide) (by decide)⟩

/-- C2: for every Faculty record found during teacher login, the one
accepted password is the first character of the trimmed name, upper-cased,
concatenated with "1234"; any other password fails with the
invalid-password 400 response. -/
theorem teacherLogin_password_derived_from_name (store : Store)
    (email password : String) (f : FacultyDoc)
    (h : findOneFaculty store.faculty email = some f) :
    (teacherLogin store email password = .ok f.name ↔
      password = jsToUpper (jsCharAt0 (jsTrim f.name)) ++ "1234") ∧
    (password ≠ jsToUpper (jsCharAt0 (jsTrim f.name)) ++ "1234" →
      teacherLogin store email password = .invalidPassword) := by
  constructor
  · constructor
    · intro hok
      by_cases hp : password = teacherCorrectPassword f.name
      · simpa [teacherCorrectPassword] using hp
      · simp [teacherLogin, h, hp] at hok
    · intro hp
      have hp' : password = teacherCorrectPassword f.name := by
        simpa [teacherCorrectPassword] using hp
      simp [teacherLogin, h, hp']
  · intro hp
    have hp' : password ≠ teacherCorrectPassword f.name := by
      simpa [teacherCorrectPassword] using hp
    simp [teacherLogin, h, hp']

/-- Witness for C2: with the faculty "alice" looked up via "ALICE", the
password "A1234" is accepted and "alice1234" is rejected. -/
theorem teacherLogin_password_derived_from_name_witness :
    (findOneFaculty ([⟨0, "alice"⟩] : List FacultyDoc) "ALICE" =
      some ⟨0, "alice"⟩) ∧
    ((teacherLogin ⟨[], [⟨0, "alice"⟩], [], []⟩ "ALICE" "A1234" =
        .ok ("alice" : String) ↔
      ("A1234" : String) = jsToUpper (jsCharAt0 (jsTrim ("alice" : String))) ++ "1234") ∧
    (("A1234" : String) ≠ jsToUpper (jsCharAt0 (jsTrim ("alice" : String))) ++ "1234" →
      teacherLogin ⟨[], [⟨0, "alice"⟩], [], []⟩ "ALICE" "A1234" =
        .invalidPassword)) :=
  ⟨by decide,
    teacherLogin_password_derived_from_name ⟨[], [⟨0, "alice"⟩], [], []⟩
      "ALICE" "A1234" ⟨0, "alice"⟩ (by decide)⟩

/-- Counterexample to C5 as stated: the supplied identity is interpreted as
a regex body, so E = "a.c" selects the faculty named "abc" — a name that is
not the same string as "a.c" case-insensitively. -/
theorem teacherLookup_regex_metachar_selects_nonequal_name :
    facultyNameMatches "a.c" "abc" = true ∧
    ciWholeStringEq "a.c" "abc" = false ∧
    teacherLogin ⟨[], [⟨0, "abc"⟩], [], []⟩ "a.c" "A1234" = .ok "abc" := by
  refine ⟨by decide, by decide, by decide⟩

/-- C5 (amended): when the supplied identity contains no regex
metacharacter, the anchored case-insensitive lookup selects a faculty iff
its name equals the identity as a case-insensitive whole string; and when
no faculty matches, the login fails with the not-found 400 response. -/
theorem teacherLookup_ci_equality_for_plain_identity (store : Store)
    (E name password : String)
    (h : ∀ c ∈ E.data, isRegexSpecial c = false) :
    (facultyNameMatches E name = ciWholeStringEq E name) ∧
    (findOneFaculty store.faculty E = none →
      teacherLogin store E password = .facultyNotFound) := by
  constructor
  · rw [Bool.eq_iff_iff]
    unfold facultyNameMatches ciWholeStringEq
    simp only [decide_eq_true_eq]
    exact regexTokensMatch_all_lit E.data name.data h
  · intro hnone
    simp [teacherLogin, hnone]

/-- Witness for C5 (amended): "Alice" has no metacharacter, matches exactly
the names CI-equal to it, and an unmatched identity yields not-found. -/
theorem teacherLookup_ci_equality_for_plain_identity_witness :
    (∀ c ∈ ("Alice" : String).data, isRegexSpecial c = false) ∧
    ((facultyNameMatches "Alice" "aliCE" = ciWholeStringEq "Alice" "aliCE") ∧
    (findOneFaculty (⟨[], [⟨0, "bob"⟩], [], []⟩ : Store).faculty "Alice" = none →
      teacherLogin ⟨[], [⟨0, "bob"⟩], [], []⟩ "Alice" "A1234" =
        .facultyNotFound)) :=
  ⟨by decide,
    teacherLookup_ci_equality_for_plain_identity ⟨[], [⟨0, "bob"⟩], [], []⟩
      "Alice" "aliCE" "A1234" (by decide)⟩

/-- C1: approving a swap request R that exists in the store returns R with
status "approved" (no error), and R is stored with that status; when
R.toFaculty is non-empty and a schedule matching (grade, day, time,
faculty = fromFaculty) exists, the first such schedule's faculty field is
rewritten to R.toFaculty in place; when R.toFaculty is empty or no schedule
matches, the schedules are unchanged and the status change still happens. -/
theorem approveSwap_approves_and_rewrites_schedule (store : Store) (i : Nat)
    (R : SwapDoc) (h : findSwapById store.swaps i = some R) :
    ∃ store',
      approveSwap store i = .ok ({ R with status := "approved" }, store') ∧
      findSwapById store'.swaps i = some { R with status := "approved" } ∧
      (R.toFaculty ≠ "" →
        ∀ s, store.schedules.find? (scheduleMatches R) = some s →
          ∃ l1 l2, store.schedules = l1 ++ s :: l2 ∧
            store'.schedules =
              l1 ++ { s with faculty := R.toFaculty } :: l2) ∧
      ((R.toFaculty = "" ∨
          store.schedules.find? (scheduleMatches R) = none) →
        store'.schedules = store.schedules) := by
  have h1 := findByIdAndUpdateSwapStatus_fst store.swaps i "approved" R h
  have h2 := findSwapById_update store.swaps i "approved" R h
  rcases hr : findByIdAndUpdateSwapStatus store.swaps i "approved" with ⟨r, swaps'⟩
  rw [hr] at h1 h2
  have h1' : r = some { R with status := "approved" } := h1
  have h2' : findSwapById swaps' i = some { R with status := "approved" } := h2
  subst h1'
  refine ⟨{ store with
      swaps := swaps',
      schedules := if R.toFaculty ≠ "" then
          findOneAndUpdateScheduleFaculty (scheduleMatches R) R.toFaculty
            store.schedules
        else store.schedules }, ?_, h2', ?_, ?_⟩
  · unfold approveSwap
    rw [hr]
    rfl
  · intro hne s hfind
    obtain ⟨l1, l2, hl, _, hres⟩ :=
      findOneAndUpdateScheduleFaculty_of_find_some (scheduleMatches R)
        R.toFaculty store.schedules s hfind
    exact ⟨l1, l2, hl, by simp [hne, hres]⟩
  · intro hcase
    rcases hcase with h0 | hnone
    · simp [h0]
    · by_cases hne : R.toFaculty = ""
      · simp [hne]
      · simp [hne,
          findOneAndUpdateScheduleFaculty_of_find_none (scheduleMatches R)
            R.toFaculty store.schedules hnone]

/-- Witness for C1: the spec's scenario — approving the pending swap
(Alice → Bob, 10A, Mon, 9am) succeeds and its matching schedule's faculty
is rewritten. -/
theorem approveSwap_approves_and_rewrites_schedule_witness :
    (findSwapById
        [⟨5, "Alice", "Bob", "10A", "Mon", "9am", "pending"⟩] 5 =
      some ⟨5, "Alice", "Bob", "10A", "Mon", "9am", "pending"⟩) ∧
    (∃ store',
      approveSwap
          ⟨[], [], [⟨0, "10A", "Math", "Alice", "R1", "Mon", "9am"⟩],
            [⟨5, "Alice", "Bob", "10A", "Mon", "9am", "pending"⟩]⟩ 5 =
        .ok ({ (⟨5, "Alice", "Bob", "10A", "Mon", "9am", "pending"⟩ :
            SwapDoc) with status := "approved" }, store') ∧
      findSwapById store'.swaps 5 =
        some { (⟨5, "Alice", "Bob", "10A", "Mon", "9am", "pending"⟩ :
          SwapDoc) with status := "approved" } ∧
      ((⟨5, "Alice", "Bob", "10A", "Mon", "9am", "pending"⟩ :
          SwapDoc).toFaculty ≠ "" →
        ∀ s, (⟨[], [], [⟨0, "10A", "Math", "Alice", "R1", "Mon", "9am"⟩],
              [⟨5, "Alice", "Bob", "10A", "Mon", "9am", "pending"⟩]⟩ :
            Store).schedules.find?
            (scheduleMatches
              ⟨5, "Alice", "Bob", "10A", "Mon", "9am", "pending"⟩) = some s →
          ∃ l1 l2,
            (⟨[], [], [⟨0, "10A", "Math", "Alice", "R1", "Mon", "9am"⟩],
                [⟨5, "Alice", "Bob", "10A", "Mon", "9am", "pending"⟩]⟩ :
              Store).schedules = l1 ++ s :: l2 ∧
            store'.schedules =
              l1 ++ { s with faculty :=
                (⟨5, "Alice", "Bob", "10A", "Mon", "9am", "pending"⟩ :
                  SwapDoc).toFaculty } :: l2) ∧
      (((⟨5, "Alice", "Bob", "10A", "Mon", "9am", "pending"⟩ :
            SwapDoc).toFaculty = "" ∨
          (⟨[], [], [⟨0, "10A", "Math", "Alice", "R1", "Mon", "9am"⟩],
              [⟨5, "Alice", "Bob", "10A", "Mon", "9am", "pending"⟩]⟩ :
            Store).schedules.find?
            (scheduleMatches
              ⟨5, "Alice", "Bob", "10A", "Mon", "9am", "pending"⟩) = none) →
        store'.schedules =
          (⟨[], [], [⟨0, "10A", "Math", "Alice", "R1", "Mon", "9am"⟩],
              [⟨5, "Alice", "Bob", "10A", "Mon", "9am", "pending"⟩]⟩ :
            Store).schedules)) :=
  ⟨by decide,
    approveSwap_approves_and_rewrites_schedule
      ⟨[], [], [⟨0, "10A", "Math", "Alice", "R1", "Mon", "9am"⟩],
        [⟨5, "Alice", "Bob", "10A", "Mon", "9am", "pending"⟩]⟩ 5
      ⟨5, "Alice", "Bob", "10A", "Mon", "9am", "pending"⟩ (by decide)⟩

end Smartclass
